import Mathlib

/-!
Shallow embedding of camplayer-vlc (Go) for checking its specification.

The repository contains two variants of `main.go`:
* variant 1 (no web UI): `loadConfig(path)`, a `main` that treats a missing
  `RTSP_URL` as fatal, and a `runLoop(ctx, cfg)` with a plain backoff loop;
* variant 2 (web UI): a global `restartVLCCh` channel of capacity 1,
  `loadConfig()` that defaults `VLC_PATH` to `"cvlc"`, `saveConfig`,
  a supervisor `runLoop(ctx)` that reloads the configuration on every
  iteration, `sleepOrRestart`, `nextBackoff`, and an HTTP `/update` handler.

Lines of a text file are modelled as `List Char` (the tokens produced by
`bufio.Scanner` with the default line splitter); a file is a `List` of lines.
Durations are modelled in whole seconds as `Nat`.
-/

namespace Camplayer

/-- The ASCII white-space predicate used by Go's `strings.TrimSpace`
(`asciiSpace`: tab, newline, vertical tab, form feed, carriage return,
space).  Config content is ASCII, so the Unicode cases of
`unicode.IsSpace` are not reachable in this model. -/
def goIsSpace (c : Char) : Bool :=
  c = ' ' || c = '\t' || c = '\n' || c = (Char.ofNat 11) || c = (Char.ofNat 12) || c = '\r'

/-- Drop leading white space (the left half of `strings.TrimSpace`). -/
def trimLeft (l : List Char) : List Char :=
  l.dropWhile goIsSpace

/-- Drop trailing white space (the right half of `strings.TrimSpace`). -/
def trimRight (l : List Char) : List Char :=
  (l.reverse.dropWhile goIsSpace).reverse

/-- Go's `strings.TrimSpace` on a line. -/
def trimSpace (l : List Char) : List Char :=
  trimRight (trimLeft l)

/-- `strings.SplitN(line, "=", 2)`: `none` when the line has no `'='`
(`len(parts) != 2` in the source), otherwise the part before the first
`'='` and everything after it. -/
def splitFirstEq : List Char → Option (List Char × List Char)
  | [] => none
  | c :: rest =>
    if c = '=' then some ([], rest)
    else
      match splitFirstEq rest with
      | none => none
      | some (k, v) => some (c :: k, v)

/-- The `Config` struct of `main.go`, shared by both variants. -/
structure Config where
  RTSP_URL : List Char
  VLC_PATH : List Char
  deriving DecidableEq, Repr

/-- One iteration of the `for scanner.Scan()` body of `loadConfig`:
trim the raw line, skip blanks and `#` comments, skip lines without `'='`
(logged as malformed), trim the key and value, and assign a recognized
key; unknown keys are skipped (logged). -/
def applyLine (cfg : Config) (raw : List Char) : Config :=
  let line := trimSpace raw
  if line = [] then cfg
  else if line.head? = some '#' then cfg
  else
    match splitFirstEq line with
    | none => cfg
    | some (k, v) =>
      let key := trimSpace k
      let val := trimSpace v
      if key = "RTSP_URL".toList then { cfg with RTSP_URL := val }
      else if key = "VLC_PATH".toList then { cfg with VLC_PATH := val }
      else cfg

/-- The scanning loop of `loadConfig` over the file's lines, starting from
the zero `Config{}` — the parsing common to both variants. -/
def parseLines (ls : List (List Char)) : Config :=
  ls.foldl applyLine ⟨[], []⟩

/-- Variant 2's `loadConfig()`: parse the file, then default `VLC_PATH`
to `"cvlc"` when empty. -/
def loadConfig (ls : List (List Char)) : Config :=
  let cfg := parseLines ls
  if cfg.VLC_PATH = [] then { cfg with VLC_PATH := "cvlc".toList } else cfg

/-- Variant 2's `saveConfig`: write `RTSP_URL=...` then `VLC_PATH=...`,
each only when non-empty, as the new file content. -/
def saveConfig (cfg : Config) : List (List Char) :=
  (if cfg.RTSP_URL ≠ [] then ["RTSP_URL=".toList ++ cfg.RTSP_URL] else []) ++
  (if cfg.VLC_PATH ≠ [] then ["VLC_PATH=".toList ++ cfg.VLC_PATH] else [])

/-- The argument list built for the child process (both variants):
`args := []string{cfg.RTSP_URL}` — exactly the stream address. -/
def launchArgs (cfg : Config) : List (List Char) :=
  [cfg.RTSP_URL]

/-- Variant 1's `main` up to entering `runLoop`: a failed load is fatal
(`log.Fatalf`), an empty `RTSP_URL` is fatal, otherwise `VLC_PATH` is
defaulted to `"vlc"` and the supervisor loop is entered with the result.
`none` means the program dies before the loop. -/
def mainV1 (openErr : Bool) (file : List (List Char)) : Option Config :=
  if openErr then none
  else
    let cfg := parseLines file
    if cfg.RTSP_URL = [] then none
    else some (if cfg.VLC_PATH = [] then { cfg with VLC_PATH := "vlc".toList } else cfg)

/-- Variant 2's `main` up to entering `runLoop`: the initial `loadConfig`
is attempted only "to warn early if unreadable"; whatever its outcome,
`runLoop` is started. -/
def mainV2EntersLoop (_initialLoadErr : Bool) : Bool :=
  true

/-! ### Variant 2's supervisor loop

`runLoop` is driven by external events: context cancellation, the result
of `loadConfig`, whether `cmd.Start()` succeeds, which arm of the
three-way `select` fires while the child runs, and which arm of
`sleepOrRestart`'s `select` fires during a backoff sleep.  One loop
iteration is a function of the current backoff and an oracle supplying
those outcomes. -/

/-- `backoff := 2 * time.Second` (in seconds). -/
def baseBackoff : Nat := 2

/-- `const maxBackoff = 30 * time.Second` (in seconds). -/
def maxBackoff : Nat := 30

/-- `nextBackoff`: double, capped at `max`. -/
def nextBackoff (current max : Nat) : Nat :=
  let c := current * 2
  if c > max then max else c

/-- Which arm of `sleepOrRestart`'s `select` fires. -/
inductive SleepOutcome
  | shutdown
  | restart
  | timer
  deriving DecidableEq, Repr

/-- `sleepOrRestart(ctx, d)`: `false` (stop the loop) only on context
cancellation; a restart request or the elapsed timer both return `true`. -/
def sleepOrRestart (o : SleepOutcome) : Bool :=
  match o with
  | .shutdown => false
  | .restart => true
  | .timer => true

/-- The backoff delay actually waited out: the full duration `d` only
when the timer arm fires; a restart or shutdown arm interrupts the wait. -/
def sleptDelay (o : SleepOutcome) (d : Nat) : Option Nat :=
  if o = .timer then some d else none

/-- Which arm of the `select` waiting on the running child fires:
`<-ctx.Done()`, `<-restartVLCCh`, or `err := <-waitCh`. -/
inductive WaitEvent
  | shutdown
  | restart
  | exited
  deriving DecidableEq, Repr

/-- The external outcomes feeding one iteration of variant 2's `runLoop`:
top-of-loop cancellation check, `loadConfig` result (an I/O failure flag
plus the current file content), `cmd.Start()` success, the arm taken while
waiting on the child, and the arm taken in a backoff sleep (if reached). -/
structure IterOracle where
  shutdownAtTop : Bool
  loadErr : Bool
  file : List (List Char)
  startOk : Bool
  waitEvent : WaitEvent
  sleepEvent : SleepOutcome

/-- Result of one `runLoop` iteration: `stop` for the `return nil` paths,
otherwise the backoff carried into the next iteration, the backoff delay
fully waited out this iteration (if any), and the configuration launched
this iteration (if a launch happened). -/
inductive IterResult
  | stop
  | next (backoff : Nat) (slept : Option Nat) (launched : Option Config)
  deriving DecidableEq, Repr

/-- One iteration of variant 2's `runLoop`, in source order: shutdown
check, `loadConfig` (error → backoff retry), empty `RTSP_URL` (→ backoff
retry), reset `backoff` to 2s after a good config, build the argument
list and start the child (`Start` failure → backoff retry), then the
three-way wait: shutdown kills the child and returns, a restart request
kills the child and continues immediately, a child exit falls through to
the backoff sleep. -/
def runIter (backoff : Nat) (o : IterOracle) : IterResult :=
  if o.shutdownAtTop then .stop
  else if o.loadErr then
    if sleepOrRestart o.sleepEvent then
      .next (nextBackoff backoff maxBackoff) (sleptDelay o.sleepEvent backoff) none
    else .stop
  else
    let cfg := loadConfig o.file
    if cfg.RTSP_URL = [] then
      if sleepOrRestart o.sleepEvent then
        .next (nextBackoff backoff maxBackoff) (sleptDelay o.sleepEvent backoff) none
      else .stop
    else
      -- backoff = 2 * time.Second  (reset after a good config)
      if o.startOk then
        match o.waitEvent with
        | .shutdown => .stop
        | .restart => .next baseBackoff none (some cfg)
        | .exited =>
          if sleepOrRestart o.sleepEvent then
            .next (nextBackoff baseBackoff maxBackoff) (sleptDelay o.sleepEvent baseBackoff)
              (some cfg)
          else .stop
      else
        if sleepOrRestart o.sleepEvent then
          .next (nextBackoff baseBackoff maxBackoff) (sleptDelay o.sleepEvent baseBackoff) none
        else .stop

/-- Run `runLoop` through a list of per-iteration oracles, collecting the
fully waited-out backoff delays and the argument lists of the launches,
in order; the loop stops early at a `stop` iteration. -/
def runTrace (backoff : Nat) : List IterOracle → List Nat × List (List (List Char))
  | [] => ([], [])
  | o :: os =>
    match runIter backoff o with
    | .stop => ([], [])
    | .next b2 slept launched =>
      let rest := runTrace b2 os
      (slept.toList ++ rest.1, (launched.map launchArgs).toList ++ rest.2)

/-! ### RestartSignal (`restartVLCCh`, a channel of capacity 1)

The channel state is its number of buffered tokens. -/

/-- Capacity of `restartVLCCh` (`make(chan struct{}, 1)`). -/
def chanCap : Nat := 1

/-- The non-blocking send `select { case restartVLCCh <- struct{}{}: default: }`
used by the `/update` handler: buffer a token if there is room, otherwise
drop the request.  Total — it never blocks and never fails. -/
def request (n : Nat) : Nat :=
  if n < chanCap then n + 1 else n

/-- What a receiver (`<-restartVLCCh`) can observe: whether a restart is
pending. -/
def restartPendingObs (n : Nat) : Bool :=
  decide (0 < n)

/-! ### Go `select` semantics

Each supervisor wait point is a Go `select` over a subset of four events.
Per the Go specification, when several communications can proceed the
executed case is chosen by a uniform pseudo-random selection among the
ready ones — resolution is to exactly one ready case, with no priority
between cases.  `selectMay r e` states that a `select` whose ready set is
`r` may resolve to event `e`. -/

/-- Readiness of the four events a supervisor wait point can select on;
an event absent from a given `select` is simply never ready there. -/
structure ReadySet where
  shutdown : Bool
  restart : Bool
  exited : Bool
  timer : Bool
  deriving DecidableEq, Repr

/-- The four events of the supervisor's multi-way waits. -/
inductive SelEvent
  | shutdown
  | restart
  | exited
  | timer
  deriving DecidableEq, Repr

/-- Whether event `e` is ready in `r`. -/
def evReady (r : ReadySet) : SelEvent → Bool
  | .shutdown => r.shutdown
  | .restart => r.restart
  | .exited => r.exited
  | .timer => r.timer

/-- Go `select` resolution relation: any ready case may be the one chosen. -/
def selectMay (r : ReadySet) (e : SelEvent) : Prop :=
  evReady r e = true

instance (r : ReadySet) (e : SelEvent) : Decidable (selectMay r e) := by
  unfold selectMay; infer_instance

/-! ### The `/update` handler of the Control Surface (variant 2) -/

/-- Outcome of a `POST /update`: the file content afterwards, the
`restartVLCCh` state afterwards, and whether the input was rejected as
empty. -/
structure UpdateResult where
  file : List (List Char)
  pending : Nat
  rejected : Bool
  deriving DecidableEq, Repr

/-- The body of the `/update` handler after `ParseForm`: trim the
`rtsp_url` form value; when empty, render an error and return without
saving or signalling; otherwise load the existing config to preserve
`VLC_PATH` (a failed load degrades to the zero `Config{}`), overwrite
`RTSP_URL`, default `VLC_PATH` to `"cvlc"`, save, and issue the
non-blocking restart request.  (The save itself is modelled as
succeeding.) -/
def handleUpdate (form : List Char) (file : List (List Char)) (loadErr : Bool)
    (pending : Nat) : UpdateResult :=
  let rtsp := trimSpace form
  if rtsp = [] then ⟨file, pending, true⟩
  else
    let cfg0 := if loadErr then (⟨[], []⟩ : Config) else loadConfig file
    let cfg1 : Config := { cfg0 with RTSP_URL := rtsp }
    let cfg2 := if cfg1.VLC_PATH = [] then { cfg1 with VLC_PATH := "cvlc".toList } else cfg1
    ⟨saveConfig cfg2, request pending, false⟩

/-! ### Concrete scenario inputs -/

/-- A good config file holding only `RTSP_URL=rtsp://cam/1` (the spec's
scenario file). -/
def scenarioFile : List (List Char) :=
  ["RTSP_URL=rtsp://cam/1".toList]

/-- An iteration in which the config loads fine, the child starts, exits
immediately, and the backoff timer then runs out. -/
def goodExitOracle : IterOracle :=
  ⟨false, false, scenarioFile, true, .exited, .timer⟩

/-- An iteration in which `loadConfig` fails and the backoff timer runs
out. -/
def loadFailOracle : IterOracle :=
  ⟨false, true, [], true, .exited, .timer⟩

/-- The conditions under which `loadConfig` skips a line: blank after
trimming, a `#` comment, no `'='` (malformed), or an unrecognized key. -/
def lineIgnored (raw : List Char) : Prop :=
  trimSpace raw = [] ∨
  (trimSpace raw).head? = some '#' ∨
  splitFirstEq (trimSpace raw) = none ∨
  (∃ k v, splitFirstEq (trimSpace raw) = some (k, v) ∧
    trimSpace k ≠ "RTSP_URL".toList ∧ trimSpace k ≠ "VLC_PATH".toList)

/-! ### Lemmas about trimming -/

theorem dropWhile_fix_head {c : Char} {w : List Char}
    (h : List.dropWhile goIsSpace (c :: w) = c :: w) : goIsSpace c = false := by
  by_contra hc
  rw [Bool.not_eq_false] at hc
  rw [List.dropWhile_cons, if_pos hc] at h
  have hs := (List.dropWhile_suffix (l := w) goIsSpace).sublist.length_le
  rw [h] at hs
  simp only [List.length_cons] at hs
  omega

theorem trimLeft_cons_of_head {c : Char} {w : List Char} (h : goIsSpace c = false) :
    trimLeft (c :: w) = c :: w := by
  unfold trimLeft
  rw [List.dropWhile_cons, if_neg (by simp [h])]

theorem length_trimLeft_le (l : List Char) : (trimLeft l).length ≤ l.length :=
  (List.dropWhile_suffix goIsSpace).sublist.length_le

theorem length_trimRight_le (l : List Char) : (trimRight l).length ≤ l.length := by
  unfold trimRight
  rw [List.length_reverse]
  have h := (List.dropWhile_suffix (l := l.reverse) goIsSpace).sublist.length_le
  simpa using h

theorem trimLeft_fix_of_fix {l : List Char} (h : trimSpace l = l) : trimLeft l = l := by
  have hle := length_trimLeft_le l
  have hge : l.length ≤ (trimLeft l).length := by
    conv_lhs => rw [← h]
    exact length_trimRight_le _
  exact (List.dropWhile_suffix goIsSpace).sublist.eq_of_length (le_antisymm hle hge)

theorem trimRight_fix_of_fix {l : List Char} (h : trimSpace l = l) : trimRight l = l := by
  have h1 := trimLeft_fix_of_fix h
  unfold trimSpace at h
  rwa [h1] at h

theorem dropWhile_reverse_of_trimRight_fix {l : List Char} (h : trimRight l = l) :
    List.dropWhile goIsSpace l.reverse = l.reverse := by
  have := congrArg List.reverse h
  unfold trimRight at this
  rwa [List.reverse_reverse] at this

theorem trimRight_cons_of_head {c : Char} {w : List Char} (h : goIsSpace c = false) :
    trimLeft (trimRight (c :: w)) = trimRight (c :: w) := by
  obtain ⟨t, ht⟩ := (List.dropWhile_suffix (l := (c :: w).reverse) goIsSpace).imp
    (fun t h => h)
  have hl : c :: w = trimRight (c :: w) ++ t.reverse := by
    have := congrArg List.reverse ht
    rw [List.reverse_append, List.reverse_reverse] at this
    unfold trimRight
    exact this.symm
  cases hr : trimRight (c :: w) with
  | nil => simp [trimLeft, List.dropWhile]
  | cons d u =>
    have hd : d = c := by
      rw [hr] at hl
      exact (List.cons_eq_cons.mp hl).1.symm
    rw [hd]
    exact trimLeft_cons_of_head h

theorem trimSpace_idem (l : List Char) : trimSpace (trimSpace l) = trimSpace l := by
  unfold trimSpace
  have h1 : trimLeft (trimLeft l) = trimLeft l := List.dropWhile_idempotent goIsSpace l
  cases hx : trimLeft l with
  | nil =>
    simp [trimRight, trimLeft, List.dropWhile]
  | cons c w =>
    rw [hx] at h1
    have hc : goIsSpace c = false := dropWhile_fix_head h1
    rw [trimRight_cons_of_head hc]
    unfold trimRight
    rw [List.reverse_reverse, List.dropWhile_idempotent]

/-- A line of the form `a :: k ++ r` whose first character is not white
space and whose tail `r` is a non-empty trim-fixed value is unchanged by
`trimSpace`. -/
theorem trimSpace_keyline {a : Char} {k r : List Char} (ha : goIsSpace a = false)
    (hfix : trimSpace r = r) (hne : r ≠ []) :
    trimSpace (a :: k ++ r) = a :: k ++ r := by
  unfold trimSpace
  rw [List.cons_append, trimLeft_cons_of_head ha]
  have hrr : List.dropWhile goIsSpace r.reverse = r.reverse :=
    dropWhile_reverse_of_trimRight_fix (trimRight_fix_of_fix hfix)
  obtain ⟨c, w, hcw⟩ : ∃ c w, r.reverse = c :: w := by
    cases hr : r.reverse with
    | nil =>
      exact absurd (by simpa using congrArg List.reverse hr) hne
    | cons c w => exact ⟨c, w, rfl⟩
  rw [hcw] at hrr
  have hc : goIsSpace c = false := dropWhile_fix_head hrr
  unfold trimRight
  rw [← List.cons_append, List.reverse_append, hcw, List.cons_append,
    List.dropWhile_cons, if_neg (by simp [hc]), ← List.cons_append, ← hcw,
    ← List.reverse_append, List.reverse_reverse]

/-- `SplitN(line, "=", 2)` splits at the first `'='`: a key without `'='`
followed by `'='` and an arbitrary remainder (which may itself contain
`'='`) yields exactly that key and remainder. -/
theorem splitFirstEq_key {k v : List Char} (h : '=' ∉ k) :
    splitFirstEq (k ++ '=' :: v) = some (k, v) := by
  induction k with
  | nil => simp [splitFirstEq]
  | cons c k ih =>
    have hc : c ≠ '=' := fun e => h (e ▸ List.mem_cons_self c k)
    have hk : '=' ∉ k := fun m => h (List.mem_cons_of_mem _ m)
    rw [List.cons_append]
    unfold splitFirstEq
    rw [if_neg hc, ih hk]

/-! ### Lemmas about `applyLine` -/

theorem applyLine_blank {raw : List Char} (h : trimSpace raw = []) (cfg : Config) :
    applyLine cfg raw = cfg := by
  simp [applyLine, h]

theorem applyLine_comment {raw : List Char} (h : (trimSpace raw).head? = some '#')
    (cfg : Config) : applyLine cfg raw = cfg := by
  have hne : trimSpace raw ≠ [] := by
    intro e
    rw [e] at h
    simp at h
  simp only [applyLine]
  rw [if_neg hne, if_pos h]

theorem applyLine_noeq {raw : List Char} (h1 : trimSpace raw ≠ [])
    (h2 : (trimSpace raw).head? ≠ some '#')
    (h3 : splitFirstEq (trimSpace raw) = none) (cfg : Config) :
    applyLine cfg raw = cfg := by
  simp only [applyLine]
  rw [if_neg h1, if_neg h2, h3]

theorem applyLine_unknown {raw k v : List Char} (h1 : trimSpace raw ≠ [])
    (h2 : (trimSpace raw).head? ≠ some '#')
    (h3 : splitFirstEq (trimSpace raw) = some (k, v))
    (hk1 : trimSpace k ≠ "RTSP_URL".toList) (hk2 : trimSpace k ≠ "VLC_PATH".toList)
    (cfg : Config) : applyLine cfg raw = cfg := by
  simp only [applyLine]
  rw [if_neg h1, if_neg h2, h3]
  simp only [if_neg hk1, if_neg hk2]

/-- Any line satisfying `lineIgnored` leaves the configuration unchanged. -/
theorem applyLine_of_lineIgnored {raw : List Char} (h : lineIgnored raw) (cfg : Config) :
    applyLine cfg raw = cfg := by
  rcases h with h | h | h | ⟨k, v, h3, hk1, hk2⟩
  · exact applyLine_blank h cfg
  · exact applyLine_comment h cfg
  · rcases Decidable.em (trimSpace raw = []) with he | hne
    · exact applyLine_blank he cfg
    · rcases Decidable.em ((trimSpace raw).head? = some '#') with hc | hnc
      · exact applyLine_comment hc cfg
      · exact applyLine_noeq hne hnc h cfg
  · rcases Decidable.em (trimSpace raw = []) with he | hne
    · exact applyLine_blank he cfg
    · rcases Decidable.em ((trimSpace raw).head? = some '#') with hc | hnc
      · exact applyLine_comment hc cfg
      · exact applyLine_unknown hne hnc h3 hk1 hk2 cfg

/-- Feeding `applyLine` the line `RTSP_URL=` ++ `r` for a non-empty
trim-fixed value `r` sets exactly the `RTSP_URL` field to `r`. -/
theorem applyLine_rtsp {r : List Char} (hfix : trimSpace r = r) (hne : r ≠ [])
    (cfg : Config) :
    applyLine cfg ("RTSP_URL=".toList ++ r) = { cfg with RTSP_URL := r } := by
  have hline : trimSpace ("RTSP_URL=".toList ++ r) = "RTSP_URL=".toList ++ r :=
    trimSpace_keyline (a := 'R') (k := "TSP_URL=".toList) (by decide) hfix hne
  have hsplit : splitFirstEq ("RTSP_URL=".toList ++ r) = some ("RTSP_URL".toList, r) := by
    have h : "RTSP_URL=".toList ++ r = "RTSP_URL".toList ++ '=' :: r := by
      simp
    rw [h]
    exact splitFirstEq_key (by decide)
  simp only [applyLine]
  rw [hline, if_neg (by simp), if_neg (by simp), hsplit]
  show (if trimSpace "RTSP_URL".toList = "RTSP_URL".toList
      then { cfg with RTSP_URL := trimSpace r }
      else if trimSpace "RTSP_URL".toList = "VLC_PATH".toList
      then { cfg with VLC_PATH := trimSpace r } else cfg) = { cfg with RTSP_URL := r }
  rw [if_pos (by decide : trimSpace "RTSP_URL".toList = "RTSP_URL".toList), hfix]

/-- Feeding `applyLine` the line `VLC_PATH=` ++ `p` for a non-empty
trim-fixed value `p` sets exactly the `VLC_PATH` field to `p`. -/
theorem applyLine_vlc {p : List Char} (hfix : trimSpace p = p) (hne : p ≠ [])
    (cfg : Config) :
    applyLine cfg ("VLC_PATH=".toList ++ p) = { cfg with VLC_PATH := p } := by
  have hline : trimSpace ("VLC_PATH=".toList ++ p) = "VLC_PATH=".toList ++ p :=
    trimSpace_keyline (a := 'V') (k := "LC_PATH=".toList) (by decide) hfix hne
  have hsplit : splitFirstEq ("VLC_PATH=".toList ++ p) = some ("VLC_PATH".toList, p) := by
    have h : "VLC_PATH=".toList ++ p = "VLC_PATH".toList ++ '=' :: p := by
      simp
    rw [h]
    exact splitFirstEq_key (by decide)
  simp only [applyLine]
  rw [hline, if_neg (by simp), if_neg (by simp), hsplit]
  show (if trimSpace "VLC_PATH".toList = "RTSP_URL".toList
      then { cfg with RTSP_URL := trimSpace p }
      else if trimSpace "VLC_PATH".toList = "VLC_PATH".toList
      then { cfg with VLC_PATH := trimSpace p } else cfg) = { cfg with VLC_PATH := p }
  rw [if_neg (by decide : ¬trimSpace "VLC_PATH".toList = "RTSP_URL".toList)]
  rw [if_pos (by decide : trimSpace "VLC_PATH".toList = "VLC_PATH".toList), hfix]

/-! ### Lemmas about `parseLines` and `loadConfig` -/

/-- `applyLine` preserves trim-fixedness of both fields: any value it
stores went through `strings.TrimSpace`. -/
theorem applyLine_trimFix {cfg : Config} (raw : List Char)
    (h1 : trimSpace cfg.RTSP_URL = cfg.RTSP_URL)
    (h2 : trimSpace cfg.VLC_PATH = cfg.VLC_PATH) :
    trimSpace (applyLine cfg raw).RTSP_URL = (applyLine cfg raw).RTSP_URL ∧
    trimSpace (applyLine cfg raw).VLC_PATH = (applyLine cfg raw).VLC_PATH := by
  simp only [applyLine]
  split
  · exact ⟨h1, h2⟩
  split
  · exact ⟨h1, h2⟩
  split
  · exact ⟨h1, h2⟩
  split
  · exact ⟨trimSpace_idem _, h2⟩
  split
  · exact ⟨h1, trimSpace_idem _⟩
  · exact ⟨h1, h2⟩

theorem foldl_applyLine_trimFix :
    ∀ (ls : List (List Char)) (cfg : Config),
      trimSpace cfg.RTSP_URL = cfg.RTSP_URL →
      trimSpace cfg.VLC_PATH = cfg.VLC_PATH →
      trimSpace (ls.foldl applyLine cfg).RTSP_URL = (ls.foldl applyLine cfg).RTSP_URL ∧
      trimSpace (ls.foldl applyLine cfg).VLC_PATH = (ls.foldl applyLine cfg).VLC_PATH
  | [], _, h1, h2 => ⟨h1, h2⟩
  | raw :: ls, cfg, h1, h2 => by
    rw [List.foldl_cons]
    have h := applyLine_trimFix raw h1 h2
    exact foldl_applyLine_trimFix ls _ h.1 h.2

theorem loadConfig_trimFix (ls : List (List Char)) :
    trimSpace (loadConfig ls).RTSP_URL = (loadConfig ls).RTSP_URL ∧
    trimSpace (loadConfig ls).VLC_PATH = (loadConfig ls).VLC_PATH := by
  have h := foldl_applyLine_trimFix ls ⟨[], []⟩ rfl rfl
  simp only [loadConfig, parseLines]
  split
  · refine ⟨h.1, ?_⟩
    show trimSpace "cvlc".toList = "cvlc".toList
    decide
  · exact h

theorem loadConfig_vlc_ne_nil (ls : List (List Char)) :
    (loadConfig ls).VLC_PATH ≠ [] := by
  simp only [loadConfig, parseLines]
  split
  · show "cvlc".toList ≠ []
    decide
  · assumption

/-- Inserting a line that `loadConfig` skips anywhere in the file leaves
the parse result unchanged. -/
theorem parseLines_ignore (ls1 ls2 : List (List Char)) {bad : List Char}
    (h : lineIgnored bad) :
    parseLines (ls1 ++ bad :: ls2) = parseLines (ls1 ++ ls2) := by
  unfold parseLines
  rw [List.foldl_append, List.foldl_append, List.foldl_cons,
    applyLine_of_lineIgnored h]

theorem loadConfig_ignore (ls1 ls2 : List (List Char)) {bad : List Char}
    (h : lineIgnored bad) :
    loadConfig (ls1 ++ bad :: ls2) = loadConfig (ls1 ++ ls2) := by
  unfold loadConfig
  rw [parseLines_ignore ls1 ls2 h]

/-- `trimSpace` eats one leading white-space character. -/
theorem trimSpace_cons_space {c : Char} (h : goIsSpace c = true) (raw : List Char) :
    trimSpace (c :: raw) = trimSpace raw := by
  unfold trimSpace trimLeft
  rw [List.dropWhile_cons, if_pos h]

/-- `trimRight` eats one trailing white-space character. -/
theorem trimRight_concat_space {c : Char} (h : goIsSpace c = true) (l : List Char) :
    trimRight (l ++ [c]) = trimRight l := by
  unfold trimRight
  rw [List.reverse_append]
  simp only [List.reverse_cons, List.reverse_nil, List.nil_append, List.singleton_append]
  rw [List.dropWhile_cons, if_pos h]

/-- `trimSpace` eats one trailing white-space character. -/
theorem trimSpace_concat_space {c : Char} (h : goIsSpace c = true) (raw : List Char) :
    trimSpace (raw ++ [c]) = trimSpace raw := by
  unfold trimSpace trimLeft
  rw [List.dropWhile_append]
  rcases he : List.dropWhile goIsSpace raw with _ | ⟨d, u⟩
  · rw [if_pos (by simp)]
    rw [List.dropWhile_cons, if_pos h]
    rfl
  · rw [if_neg (by simp)]
    exact trimRight_concat_space h _

/-- `applyLine` depends on the raw line only through its trimmed form. -/
theorem applyLine_congr {raw1 raw2 : List Char} (h : trimSpace raw1 = trimSpace raw2)
    (cfg : Config) : applyLine cfg raw1 = applyLine cfg raw2 := by
  simp only [applyLine, h]

/-! ### Lemmas about the supervisor trace -/

/-- The good-config, immediate-exit, full-timer iteration: regardless of
the incoming backoff, the config load resets the backoff, the full base
delay (2s) is waited out, and the next iteration starts from
`nextBackoff 2 30 = 4`. -/
theorem runIter_goodExit (b : Nat) :
    runIter b goodExitOracle =
      .next 4 (some baseBackoff) (some (loadConfig scenarioFile)) := rfl

/-- With a good config and an immediately-exiting child every iteration,
every fully waited inter-launch delay is the base 2s — the backoff never
grows because it is reset after each successful config load. -/
theorem runTrace_goodExit :
    ∀ (n b : Nat),
      (runTrace b (List.replicate n goodExitOracle)).1 = List.replicate n baseBackoff
  | 0, _ => rfl
  | n + 1, b => by
    rw [List.replicate_succ]
    simp only [runTrace, runIter_goodExit]
    rw [runTrace_goodExit n 4]
    rfl

/-- The restart arm of the three-way wait while the child runs: the loop
continues immediately (no backoff sleep is recorded) with the backoff
still at its reset base value, after having launched the freshly loaded
configuration. -/
theorem runIter_restart_running {b : Nat} {o : IterOracle}
    (h1 : o.shutdownAtTop = false) (h2 : o.loadErr = false)
    (h3 : (loadConfig o.file).RTSP_URL ≠ []) (h4 : o.startOk = true)
    (h5 : o.waitEvent = .restart) :
    runIter b o = .next baseBackoff none (some (loadConfig o.file)) := by
  simp [runIter, h1, h2, h3, h4, h5]

/-! ## Claims -/

/-- C1: against the claimed delay sequence `2s, 4s, 8s, ...` for a child
that exits immediately with config loading succeeding each time, two such
iterations wait `2s` and then `2s` again — the second delay is not `4s`,
because `runLoop` resets the backoff after every successful config load. -/
theorem C1_backoff_counterexample :
    (runTrace baseBackoff [goodExitOracle, goodExitOracle]).1 = [2, 2] ∧
    ([2, 2] : List Nat) ≠ [2, 4] :=
  ⟨by decide, by decide⟩

/-- C1 (amended): with config loading succeeding and the child exiting
immediately on every launch, every inter-launch delay is the base 2s
(backoff is reset after each successful config load, before the launch);
the exponential sequence `2s, 4s, 8s, 16s, 30s, 30s` occurs only across
consecutive iterations with no successful config load, e.g. when
`loadConfig` fails every time. -/
theorem C1_backoff_amended :
    (∀ n b : Nat,
      (runTrace b (List.replicate n goodExitOracle)).1 = List.replicate n baseBackoff) ∧
    (runTrace baseBackoff (List.replicate 6 loadFailOracle)).1 = [2, 4, 8, 16, 30, 30] :=
  ⟨fun n b => runTrace_goodExit n b, by decide⟩

/-- C2: in the web variant the claim fails — with an empty config file
(no `RTSP_URL`), `main` still enters the supervisor loop, and the loop's
first iteration performs a 2s backoff retry instead of dying. -/
theorem C2_startup_counterexample :
    mainV2EntersLoop true = true ∧
    runIter baseBackoff ⟨false, false, [], true, .exited, .timer⟩ =
      .next 4 (some 2) none ∧
    (IterResult.next 4 (some 2) none) ≠ .stop :=
  ⟨rfl, by decide, by decide⟩

/-- C2 (amended): only the non-web variant treats an unloadable config or
an empty `RTSP_URL` at startup as fatal before the loop; the web variant
merely warns, always starts the supervisor, and retries both conditions
inside the loop with backoff. -/
theorem C2_startup_amended :
    (∀ file, mainV1 true file = none) ∧
    (∀ file, (parseLines file).RTSP_URL = [] → mainV1 false file = none) ∧
    (∀ e, mainV2EntersLoop e = true) ∧
    (∀ (b : Nat) (o : IterOracle), o.shutdownAtTop = false → o.loadErr = false →
      (loadConfig o.file).RTSP_URL = [] → o.sleepEvent = .timer →
      runIter b o = .next (nextBackoff b maxBackoff) (some b) none) ∧
    (∀ (b : Nat) (o : IterOracle), o.shutdownAtTop = false → o.loadErr = true →
      o.sleepEvent = .timer →
      runIter b o = .next (nextBackoff b maxBackoff) (some b) none) := by
  refine ⟨fun file => rfl, ?_, fun e => rfl, ?_, ?_⟩
  · intro file h
    simp [mainV1, h]
  · intro b o h1 h2 h3 h4
    simp [runIter, h1, h2, h3, h4, sleepOrRestart, sleptDelay]
  · intro b o h1 h2 h3
    simp [runIter, h1, h2, h3, sleepOrRestart, sleptDelay]

/-- Witness for `C2_startup_amended` at concrete inputs. -/
theorem C2_startup_amended_witness :
    mainV1 true [] = none ∧
    mainV1 false [] = none ∧
    mainV2EntersLoop true = true ∧
    runIter 2 ⟨false, false, [], true, .exited, .timer⟩ =
      .next (nextBackoff 2 maxBackoff) (some 2) none ∧
    runIter 2 ⟨false, true, [], true, .exited, .timer⟩ =
      .next (nextBackoff 2 maxBackoff) (some 2) none :=
  ⟨C2_startup_amended.1 [], C2_startup_amended.2.1 [] (by decide),
   C2_startup_amended.2.2.1 true,
   C2_startup_amended.2.2.2.1 2 _ rfl rfl (by decide) rfl,
   C2_startup_amended.2.2.2.2 2 _ rfl rfl rfl⟩

/-- C3: against the claimed `extraArguments ++ [streamAddress]` with a
non-trivial built-in baseline: for the scenario file the launch argument
list is exactly `["rtsp://cam/1"]`, so no non-empty baseline sequence can
precede the stream address. -/
theorem C3_args_counterexample :
    launchArgs (loadConfig scenarioFile) = ["rtsp://cam/1".toList] ∧
    ¬∃ bl : List (List Char), bl ≠ [] ∧
      launchArgs (loadConfig scenarioFile) = bl ++ ["rtsp://cam/1".toList] := by
  refine ⟨by decide, ?_⟩
  rintro ⟨bl, hne, heq⟩
  have h1 : (launchArgs (loadConfig scenarioFile)).length = 1 := by decide
  rw [heq, List.length_append, List.length_singleton] at h1
  exact hne (List.length_eq_zero.mp (by omega))

/-- C3 (amended): the launch argument list is exactly `[streamAddress]`;
there are no extra arguments — the parser knows only `RTSP_URL` and
`VLC_PATH` (a `VLC_EXTRA_ARGS` key is ignored as unknown), and in the
scenario `VLC_PATH` resolves to its default `"cvlc"` while the argument
list is `["rtsp://cam/1"]`. -/
theorem C3_args_amended :
    (∀ cfg : Config, launchArgs cfg = [cfg.RTSP_URL]) ∧
    launchArgs (loadConfig scenarioFile) = ["rtsp://cam/1".toList] ∧
    (loadConfig scenarioFile).VLC_PATH = "cvlc".toList ∧
    loadConfig ("VLC_EXTRA_ARGS=--network-caching=200".toList :: scenarioFile) =
      loadConfig scenarioFile :=
  ⟨fun _ => rfl, by decide, by decide, by decide⟩

/-- C4: two `request()` calls before an observation leave `restartVLCCh`
in the same state as one; the channel never holds more than one pending
token; the receiver observes the same thing either way.  `request` is a
total function — it never blocks and never fails. -/
theorem C4_request_coalesce :
    (∀ n : Nat, request (request n) = request n) ∧
    (∀ n : Nat, n ≤ chanCap → request n ≤ chanCap) ∧
    (∀ n : Nat, restartPendingObs (request (request n)) = restartPendingObs (request n)) := by
  have hidem : ∀ n : Nat, request (request n) = request n := by
    intro n
    rcases n with _ | n
    · rfl
    · rfl
  refine ⟨hidem, ?_, ?_⟩
  · intro n h
    unfold request chanCap at *
    split
    · omega
    · omega
  · intro n
    rw [hidem n]

/-- Witness for `C4_request_coalesce` at `n = 0` (empty channel). -/
theorem C4_request_coalesce_witness :
    request (request 0) = request 0 ∧ (0 ≤ chanCap ∧ request 0 ≤ chanCap) ∧
    restartPendingObs (request (request 0)) = restartPendingObs (request 0) :=
  ⟨C4_request_coalesce.1 0, ⟨by decide, C4_request_coalesce.2.1 0 (by decide)⟩,
   C4_request_coalesce.2.2 0⟩

/-- C5: `load()` then `save()` then `load()` yields the same
Configuration for any file whose loaded stream address is non-empty. -/
theorem C5_roundtrip (ls : List (List Char)) (h : (loadConfig ls).RTSP_URL ≠ []) :
    loadConfig (saveConfig (loadConfig ls)) = loadConfig ls := by
  obtain ⟨hRfix, hVfix⟩ := loadConfig_trimFix ls
  have hVne := loadConfig_vlc_ne_nil ls
  generalize hgen : loadConfig ls = c at h hRfix hVfix hVne ⊢
  have hsave : saveConfig c =
      ["RTSP_URL=".toList ++ c.RTSP_URL, "VLC_PATH=".toList ++ c.VLC_PATH] := by
    unfold saveConfig
    rw [if_pos h, if_pos hVne]
    rfl
  rw [hsave]
  unfold loadConfig parseLines
  rw [List.foldl_cons, List.foldl_cons, List.foldl_nil,
    applyLine_rtsp hRfix h, applyLine_vlc hVfix hVne]
  show (if c.VLC_PATH = [] then { c with VLC_PATH := "cvlc".toList } else c) = c
  rw [if_neg hVne]

/-- Witness for `C5_roundtrip` on the scenario file. -/
theorem C5_roundtrip_witness :
    (loadConfig scenarioFile).RTSP_URL ≠ [] ∧
    loadConfig (saveConfig (loadConfig scenarioFile)) = loadConfig scenarioFile :=
  ⟨by decide, C5_roundtrip scenarioFile (by decide)⟩

/-- C6: a `POST /update` whose `rtsp_url` trims to empty is rejected:
the file is not written, the stored configuration is unchanged, and no
restart is requested (`restartVLCCh` is untouched). -/
theorem C6_empty_post_rejected (form : List Char) (file : List (List Char))
    (loadErr : Bool) (pending : Nat) (h : trimSpace form = []) :
    handleUpdate form file loadErr pending = ⟨file, pending, true⟩ := by
  simp [handleUpdate, h]

/-- Witness for `C6_empty_post_rejected` on an all-blank form value. -/
theorem C6_empty_post_rejected_witness :
    trimSpace "   ".toList = [] ∧
    handleUpdate "   ".toList scenarioFile false 0 = ⟨scenarioFile, 0, true⟩ :=
  ⟨by decide, C6_empty_post_rejected "   ".toList scenarioFile false 0 (by decide)⟩

/-- C7: `loadConfig` skips (and only skips) ignorable lines — blank,
comment, without `'='`, or with an unknown key — leaving the rest of the
parse unchanged; the first `'='` splits key from value, so the value may
contain `'='`; parsing itself is total (`loadConfig` is a function of the
scanned lines — per-line problems never fail the load). -/
theorem C7_malformed_lines :
    (∀ (ls1 ls2 : List (List Char)) (bad : List Char), lineIgnored bad →
      loadConfig (ls1 ++ bad :: ls2) = loadConfig (ls1 ++ ls2)) ∧
    (∀ k v : List Char, '=' ∉ k → splitFirstEq (k ++ '=' :: v) = some (k, v)) ∧
    (loadConfig ["RTSP_URL=rtsp://h?a=b".toList]).RTSP_URL = "rtsp://h?a=b".toList ∧
    (∀ (cfg : Config) (raw : List Char),
      trimSpace raw = [] ∨ (trimSpace raw).head? = some '#' →
      applyLine cfg raw = cfg) := by
  refine ⟨fun ls1 ls2 bad h => loadConfig_ignore ls1 ls2 h,
    fun k v h => splitFirstEq_key h, by decide, ?_⟩
  intro cfg raw h
  rcases h with h | h
  · exact applyLine_blank h cfg
  · exact applyLine_comment h cfg

/-- Witness for `C7_malformed_lines` at concrete lines. -/
theorem C7_malformed_lines_witness :
    loadConfig (["RTSP_URL=x".toList] ++ "garbage line".toList :: []) =
      loadConfig (["RTSP_URL=x".toList] ++ []) ∧
    splitFirstEq ("K".toList ++ '=' :: "a=b".toList) = some ("K".toList, "a=b".toList) ∧
    applyLine ⟨[], []⟩ "# comment".toList = ⟨[], []⟩ :=
  ⟨C7_malformed_lines.1 ["RTSP_URL=x".toList] [] "garbage line".toList
      (Or.inr (Or.inr (Or.inl (by decide)))),
    C7_malformed_lines.2.1 "K".toList "a=b".toList (by decide),
    C7_malformed_lines.2.2.2 ⟨[], []⟩ "# comment".toList (Or.inr (by decide))⟩

/-- C8: a restart request observed while the child runs makes the loop
continue immediately — no backoff delay is recorded and the next
iteration reloads the configuration from the then-current file; a restart
arm during the backoff sleep returns `true` immediately (the wait is
short-circuited) and waits out none of the delay. -/
theorem C8_restart_immediate :
    (∀ (b : Nat) (o : IterOracle), o.shutdownAtTop = false → o.loadErr = false →
      (loadConfig o.file).RTSP_URL ≠ [] → o.startOk = true → o.waitEvent = .restart →
      runIter b o = .next baseBackoff none (some (loadConfig o.file))) ∧
    sleepOrRestart .restart = true ∧
    (∀ d : Nat, sleptDelay .restart d = none) ∧
    (∀ (b : Nat) (o : IterOracle) (os : List IterOracle),
      o.shutdownAtTop = false → o.loadErr = false →
      (loadConfig o.file).RTSP_URL ≠ [] → o.startOk = true → o.waitEvent = .restart →
      runTrace b (o :: os) =
        ((runTrace baseBackoff os).1,
          launchArgs (loadConfig o.file) :: (runTrace baseBackoff os).2)) := by
  refine ⟨fun b o h1 h2 h3 h4 h5 => runIter_restart_running h1 h2 h3 h4 h5,
    rfl, fun d => rfl, ?_⟩
  intro b o os h1 h2 h3 h4 h5
  simp only [runTrace, runIter_restart_running h1 h2 h3 h4 h5]
  simp [Option.toList]

/-- Witness for `C8_restart_immediate`: a restart while running with a
stale backoff of 7s relaunches with no delay. -/
theorem C8_restart_immediate_witness :
    runIter 7 ⟨false, false, scenarioFile, true, .restart, .timer⟩ =
      .next baseBackoff none
        (some (loadConfig (⟨false, false, scenarioFile, true, .restart, .timer⟩ :
          IterOracle).file)) ∧
    sleepOrRestart .restart = true ∧
    sleptDelay .restart 30 = none ∧
    runTrace 7 [⟨false, false, scenarioFile, true, .restart, .timer⟩, goodExitOracle] =
      ((runTrace baseBackoff [goodExitOracle]).1,
        launchArgs (loadConfig (⟨false, false, scenarioFile, true, .restart, .timer⟩ :
          IterOracle).file) :: (runTrace baseBackoff [goodExitOracle]).2) :=
  ⟨C8_restart_immediate.1 7 _ rfl rfl (by decide) rfl rfl,
    C8_restart_immediate.2.1,
    C8_restart_immediate.2.2.1 30,
    C8_restart_immediate.2.2.2 7 _ [goodExitOracle] rfl rfl (by decide) rfl rfl⟩

/-- C9: against the claimed shutdown priority inside a single multi-way
wait: when both the shutdown and the restart events are ready, Go's
`select` may resolve to the restart event, which is not shutdown. -/
theorem C9_select_counterexample :
    selectMay ⟨true, true, false, false⟩ SelEvent.restart ∧
    SelEvent.restart ≠ SelEvent.shutdown ∧
    (⟨true, true, false, false⟩ : ReadySet).shutdown = true :=
  ⟨rfl, by decide, rfl⟩

/-- C9 (amended): each wait resolves to exactly one event and only to a
ready one, but with no priority among simultaneously ready events; the
shutdown priority the code does provide is at the top-of-loop check
point, where a pending shutdown always stops the loop before any other
work. -/
theorem C9_select_amended :
    (∀ (r : ReadySet) (e : SelEvent), selectMay r e → evReady r e = true) ∧
    (∀ r : ReadySet, (∃ e, evReady r e = true) → ∃ e, selectMay r e) ∧
    (∀ (b : Nat) (o : IterOracle), o.shutdownAtTop = true → runIter b o = .stop) := by
  refine ⟨fun r e h => h, fun r h => h, ?_⟩
  intro b o h
  simp [runIter, h]

/-- Witness for `C9_select_amended`. -/
theorem C9_select_amended_witness :
    evReady ⟨true, false, false, false⟩ SelEvent.shutdown = true ∧
    (∃ e, selectMay ⟨true, false, false, false⟩ e) ∧
    runIter 2 ⟨true, false, [], true, .exited, .timer⟩ = .stop :=
  ⟨C9_select_amended.1 ⟨true, false, false, false⟩ SelEvent.shutdown rfl,
    C9_select_amended.2.1 ⟨true, false, false, false⟩ ⟨SelEvent.shutdown, rfl⟩,
    C9_select_amended.2.2 2 ⟨true, false, [], true, .exited, .timer⟩ rfl⟩

/-- C10: lines are trimmed before classification and keys/values are
trimmed after splitting: `  RTSP_URL = x  ` stores `"x"`, an indented
`  # note` is skipped as a comment, and any single leading or trailing
white-space character never changes what `applyLine` does. -/
theorem C10_trimming :
    (loadConfig [("  RTSP_URL = x  ").toList]).RTSP_URL = "x".toList ∧
    (∀ cfg : Config, applyLine cfg ("  # note").toList = cfg) ∧
    (∀ (cfg : Config) (raw : List Char) (c : Char), goIsSpace c = true →
      applyLine cfg (c :: raw) = applyLine cfg raw) ∧
    (∀ (cfg : Config) (raw : List Char) (c : Char), goIsSpace c = true →
      applyLine cfg (raw ++ [c]) = applyLine cfg raw) := by
  refine ⟨by decide, fun cfg => rfl, ?_, ?_⟩
  · intro cfg raw c h
    exact applyLine_congr (trimSpace_cons_space h raw) cfg
  · intro cfg raw c h
    exact applyLine_congr (trimSpace_concat_space h raw) cfg

/-- Witness for `C10_trimming` at a space character and concrete lines. -/
theorem C10_trimming_witness :
    (loadConfig [("  RTSP_URL = x  ").toList]).RTSP_URL = "x".toList ∧
    applyLine ⟨[], []⟩ ("  # note").toList = ⟨[], []⟩ ∧
    goIsSpace ' ' = true ∧
    applyLine ⟨[], []⟩ (' ' :: "RTSP_URL=y".toList) =
      applyLine ⟨[], []⟩ "RTSP_URL=y".toList ∧
    applyLine ⟨[], []⟩ ("RTSP_URL=y".toList ++ [' ']) =
      applyLine ⟨[], []⟩ "RTSP_URL=y".toList :=
  ⟨C10_trimming.1, C10_trimming.2.1 ⟨[], []⟩, by decide,
    C10_trimming.2.2.1 ⟨[], []⟩ "RTSP_URL=y".toList ' ' (by decide),
    C10_trimming.2.2.2 ⟨[], []⟩ "RTSP_URL=y".toList ' ' (by decide)⟩

end Camplayer
